import Mathlib

/-!
Shallow embedding of the core of the Hexicord Discord library
(gateway session state machine, rate-limit admission controller and
REST response handling), together with theorems settling the spec
claims about it.

Source files embedded:
- src/hexicord/gateway_client.cpp / .hpp  (GatewayClient)
- src/hexicord/ratelimit_lock.cpp / .hpp  (RatelimitLock)
- src/hexicord/rest_client.cpp            (RestClient response handling)
- src/hexicord/event_dispatcher.cpp / .hpp (Event enumeration)

C++ `unsigned` arithmetic is modelled as Nat arithmetic modulo 2^32
(the width used on every platform the library targets); `int` and
`time_t` are modelled as Int; JSON values by a small inductive type.
-/

/-- Minimal model of nlohmann::json values, sufficient for the payloads
the embedded code builds and inspects. -/
inductive Json where
  | null
  | bool (b : Bool)
  | num (n : Int)
  | str (s : String)
  | arr (elems : List Json)
  | obj (fields : List (String × Json))
deriving Repr

/-- Field access `j["key"]` on a JSON object (none when the key is
absent or the value is not an object). -/
def Json.lookup (j : Json) (key : String) : Option Json :=
  match j with
  | Json.obj fields => fields.lookup key
  | _ => none

/-- Unsigned 32-bit increment (wraps at 2^32). -/
def uinc (n : Nat) : Nat := (n + 1) % 2 ^ 32

/-- Unsigned 32-bit decrement, modelling `--x` on an `unsigned` (0 wraps to 2^32 - 1). -/
def udec (n : Nat) : Nat := (n + (2 ^ 32 - 1)) % 2 ^ 32

/-- The `Event` enumeration from event_dispatcher.hpp. -/
inductive Event where
  | Ready | Resumed
  | ChannelCreate | ChannelUpdate | ChannelDelete | ChannelPinsChange
  | GuildCreate | GuildUpdate | GuildDelete
  | GuildBanAdd | GuildBanRemove
  | GuildEmojisUpdate | GuildIntegrationsUpdate
  | GuildMemberAdd | GuildMemberRemove | GuildMemberUpdate | GuildMembersChunk
  | GuildRoleCreate | GuildRoleUpdate | GuildRoleDelete
  | MessageCreate | MessageUpdate | MessageDelete | MessageDeleteBulk
  | MessageReactionAdd | MessageReactionRemoveAll
  | PresenceUpdate | TypingStart | UserUpdate
  | VoiceStateUpdate | VoiceServerUpdate | WebhooksUpdate
deriving Repr, DecidableEq

/-- The constant `GatewayClient::NoSharding` (gateway_client.hpp). -/
def NoSharding : Int := -1

/-- The constant `GatewayClient::NoCloseEvent` (gateway_client.hpp). -/
def NoCloseEvent : Int := -1

/-- The `stringToEnum` table of `GatewayClient::eventEnumFromString`
(gateway_client.cpp lines 240-273).  The source looks the name up and
then `assert`s that it was found; a `none` result here therefore marks
the input on which that assertion fails (debug builds abort; release
builds dereference the end iterator). -/
def GatewayClient.eventEnumFromString (str : String) : Option Event :=
  match str with
  | "READY" => some Event.Ready
  | "RESUMED" => some Event.Resumed
  | "CHANNEL_CREATE" => some Event.ChannelCreate
  | "CHANNEL_UPDATE" => some Event.ChannelUpdate
  | "CHANNEL_DELETE" => some Event.ChannelDelete
  | "CHANNEL_PINS_CHANGE" => some Event.ChannelPinsChange
  | "GUILD_CREATE" => some Event.GuildCreate
  | "GUILD_UPDATE" => some Event.GuildUpdate
  | "GUILD_DELETE" => some Event.GuildDelete
  | "GUILD_BAN_ADD" => some Event.GuildBanAdd
  | "GUILD_BAN_REMOVE" => some Event.GuildBanRemove
  | "GUILD_EMOJIS_UPDATE" => some Event.GuildEmojisUpdate
  | "GUILD_INTEGRATIONS_UPDATE" => some Event.GuildIntegrationsUpdate
  | "GUILD_MEMBER_ADD" => some Event.GuildMemberAdd
  | "GUILD_MEMBER_REMOVE" => some Event.GuildMemberRemove
  | "GUILD_MEMBER_UPDATE" => some Event.GuildMemberUpdate
  | "GUILD_MEMBERS_CHUNK" => some Event.GuildMembersChunk
  | "GUILD_ROLE_CREATE" => some Event.GuildRoleCreate
  | "GUILD_ROLE_UPDATE" => some Event.GuildRoleUpdate
  | "GUILD_ROLE_DELETE" => some Event.GuildRoleDelete
  | "MESSAGE_CREATE" => some Event.MessageCreate
  | "MESSAGE_UPDATE" => some Event.MessageUpdate
  | "MESSAGE_DELETE" => some Event.MessageDelete
  | "MESSAGE_DELETE_BULK" => some Event.MessageDeleteBulk
  | "MESSAGE_REACTION_ADD" => some Event.MessageReactionAdd
  | "MESSAGE_REACTION_REMOVE_ALL" => some Event.MessageReactionRemoveAll
  | "PRESENCE_UPDATE" => some Event.PresenceUpdate
  | "TYPING_START" => some Event.TypingStart
  | "USER_UPDATE" => some Event.UserUpdate
  | "VOICE_STATE_UPDATE" => some Event.VoiceStateUpdate
  | "VOICE_SERVER_UPDATE" => some Event.VoiceServerUpdate
  | "WEBHOOKS_UPDATE" => some Event.WebhooksUpdate
  | _ => none

/-- The mutable state of a `GatewayClient` instance that the embedded
member functions read and write (gateway_client.hpp lines 214-241). -/
structure GatewayState where
  sessionId : String
  lastGatewayUrl : String
  token : String
  shardId : Int
  shardCount : Int
  lastSequenceNumber : Int
  unansweredHeartbeats : Nat
  heartbeat : Bool
  poll : Bool
  connectionOpen : Bool
deriving Repr, DecidableEq

/-- Incoming gateway messages, split by the `op` code exactly as the
`switch` in `GatewayClient::processMessage` splits them.  For a
Dispatch the fields `t`, `s`, `d` of the wire JSON are carried
explicitly (the source accesses them only in that case). -/
inductive GwMessage where
  | eventDispatch (t : String) (s : Int) (d : Json)
  | heartbeat (d : Json)
  | reconnect
  | invalidSession
  | heartbeatAck
  | other (op : Nat)
deriving Repr

/-- What `GatewayClient::disconnect(code)` observably did. -/
structure DisconnectEffect where
  closeEventSent : Bool
deriving Repr, DecidableEq

/-- Embeds `GatewayClient::disconnect(int code)` (gateway_client.cpp lines
155-168): best-effort close event unless `code == NoCloseEvent`, stop
heartbeat and poll loops, free the connection. -/
def GatewayClient.disconnect (st : GatewayState) (code : Int) :
    GatewayState × DisconnectEffect :=
  ({ st with heartbeat := false, poll := false, connectionOpen := false },
   ⟨code != NoCloseEvent⟩)

/-- The arguments of a `resume(...)` call issued by the client. -/
structure ResumeCall where
  gatewayUrl : String
  sessionId : String
  lastSequenceNumber : Int
  shardId : Int
  shardCount : Int
deriving Repr, DecidableEq

/-- The observable action performed by one `processMessage` call
besides the state update. -/
inductive ProcessEffect where
  /-- `eventDispatcher.dispatchEvent(event, d)` was invoked. -/
  | dispatched (e : Event) (d : Json)
  /-- the `assert` in `eventEnumFromString` failed on name `t`
  (the program aborts; no handler is invoked). -/
  | assertFailed (t : String)
  /-- a heartbeat message carrying `seq` was sent in reply to a
  server-requested ping. -/
  | sentHeartbeat (seq : Int)
  /-- op 7: `disconnect()` (default code 2000) followed by a direct
  `resume` with the recorded arguments, with no invalid-session
  fallback (gateway_client.cpp lines 298-304). -/
  | reconnectAction (dis : DisconnectEffect) (res : ResumeCall)
  /-- `throw GatewayError(msg)`. -/
  | gatewayError (msg : String)
  /-- default branch: message logged and ignored. -/
  | noEffect
deriving Repr

/-- Embeds `GatewayClient::processMessage` (gateway_client.cpp lines 281-313). -/
def GatewayClient.processMessage (st : GatewayState) (m : GwMessage) :
    GatewayState × ProcessEffect :=
  match m with
  | GwMessage.eventDispatch t s d =>
    let st2 := { st with lastSequenceNumber := s }
    match GatewayClient.eventEnumFromString t with
    | some e => (st2, ProcessEffect.dispatched e d)
    | none => (st2, ProcessEffect.assertFailed t)
  | GwMessage.heartbeatAck =>
    ({ st with unansweredHeartbeats := udec st.unansweredHeartbeats },
     ProcessEffect.noEffect)
  | GwMessage.heartbeat _ =>
    ({ st with unansweredHeartbeats := uinc st.unansweredHeartbeats },
     ProcessEffect.sentHeartbeat st.lastSequenceNumber)
  | GwMessage.reconnect =>
    let (st2, dis) := GatewayClient.disconnect st 2000
    (st2, ProcessEffect.reconnectAction dis
      ⟨st.lastGatewayUrl, st.sessionId, st.lastSequenceNumber,
       NoSharding, NoSharding⟩)
  | GwMessage.invalidSession =>
    (st, ProcessEffect.gatewayError "Invalid session.")
  | GwMessage.other _ =>
    (st, ProcessEffect.noEffect)

/-- Result of one firing of the heartbeat timer body
(`GatewayClient::sendHeartbeat`). -/
inductive HeartbeatStep where
  /-- `unansweredHeartbeats >= 2`: `recoverConnection()` is called and
  no heartbeat is sent. -/
  | recoverTriggered
  /-- a heartbeat carrying `seq` was sent. -/
  | heartbeatSent (seq : Int)
deriving Repr, DecidableEq

/-- Embeds `GatewayClient::sendHeartbeat` (gateway_client.cpp lines 342-352). -/
def GatewayClient.sendHeartbeat (st : GatewayState) :
    GatewayState × HeartbeatStep :=
  if st.unansweredHeartbeats ≥ 2 then
    (st, HeartbeatStep.recoverTriggered)
  else
    ({ st with unansweredHeartbeats := uinc st.unansweredHeartbeats },
     HeartbeatStep.heartbeatSent st.lastSequenceNumber)

/-- The Identify payload built by `GatewayClient::connect`
(gateway_client.cpp lines 71-86): the object literal followed by a
conditional `push_back` of the shard pair.  `osStr` stands for the
platform-dependent `OS_STR` macro. -/
def identifyPayload (osStr token : String) (shardId shardCount : Int)
    (initialPresense : Json) : Json :=
  Json.obj
    ([("token", Json.str token),
      ("properties", Json.obj
        [("os", Json.str osStr),
         ("browser", Json.str "hexicord"),
         ("device", Json.str "hexicord")]),
      ("compress", Json.bool false),
      ("large_threshold", Json.num 250),
      ("presense", initialPresense)] ++
     (if shardId != NoSharding && shardCount != NoSharding then
        [("shard", Json.arr [Json.num shardId, Json.num shardCount])]
      else []))

/-- State update performed by a successful `GatewayClient::connect`
once the Ready event arrived (gateway_client.cpp lines 100-109).
`newSessionId` is `readyPayload["session_id"]`. -/
def GatewayClient.connectSuccessUpdate (st : GatewayState)
    (gatewayUrl : String) (shardId shardCount : Int)
    (newSessionId : String) : GatewayState :=
  { st with
    sessionId := newSessionId,
    lastGatewayUrl := gatewayUrl,
    shardId := shardId,
    shardCount := shardCount,
    lastSequenceNumber := 0,
    heartbeat := true,
    poll := true,
    connectionOpen := true }

/-- State update performed by a successful `GatewayClient::resume`
once the Resumed event arrived (gateway_client.cpp lines 144-152). -/
def GatewayClient.resumeSuccessUpdate (st : GatewayState)
    (gatewayUrl sessionId : String) (lastSequenceNumber : Int)
    (shardId shardCount : Int) : GatewayState :=
  { st with
    lastGatewayUrl := gatewayUrl,
    sessionId := sessionId,
    lastSequenceNumber := lastSequenceNumber,
    shardId := shardId,
    shardCount := shardCount,
    heartbeat := true,
    poll := true,
    connectionOpen := true }

/-- Outcome of the `resume(...)` attempt inside `recoverConnection`.
`GatewayError` is thrown only by `processMessage` on an op 9
InvalidSession message (gateway_client.cpp line 307), so the caught
exception branch is exactly the protocol-level invalid-session
failure; any other (transport) exception propagates uncaught. -/
inductive ResumeOutcome where
  | resumed
  | invalidSession
  | transportError
deriving Repr, DecidableEq

/-- Outcome of the fallback `connect(...)` inside `recoverConnection`:
either a Ready event with a fresh session id or a raised error. -/
inductive ConnectOutcome where
  | ready (newSessionId : String)
  | connectError
deriving Repr, DecidableEq

/-- How one `recoverConnection()` run ended. -/
inductive RecoverOutcome where
  /-- the resume succeeded: session and sequence number preserved. -/
  | resumedOk
  /-- resume failed with invalid session and the fallback `connect`
  reached Ready: a fresh session. -/
  | freshSessionReady
  /-- resume raised a non-GatewayError exception which propagates. -/
  | raisedTransport
  /-- the fallback `connect` itself raised; the exception propagates. -/
  | raisedConnect
deriving Repr, DecidableEq

/-- Observable trace of one `recoverConnection()` run. -/
structure RecoverTrace where
  closeEventSent : Bool
  resumeCall : ResumeCall
  fellBackToConnect : Bool
  outcome : RecoverOutcome
deriving Repr, DecidableEq

/-- Embeds `GatewayClient::recoverConnection` (gateway_client.cpp lines
203-213): `disconnect(NoCloseEvent)`, then
`resume(lastGatewayUrl_, sessionId_, lastSequenceNumber_, shardId_,
shardCount_)`, and on a caught `GatewayError` the fallback
`connect(lastGatewayUrl_, shardId_, shardCount_)`.  The outcomes of
the two network operations are supplied as oracles. -/
def GatewayClient.recoverConnection (st : GatewayState)
    (resumeRes : ResumeOutcome) (connectRes : ConnectOutcome) :
    GatewayState × RecoverTrace :=
  let (st1, dis) := GatewayClient.disconnect st NoCloseEvent
  let call : ResumeCall :=
    ⟨st.lastGatewayUrl, st.sessionId, st.lastSequenceNumber,
     st.shardId, st.shardCount⟩
  match resumeRes with
  | ResumeOutcome.resumed =>
    (GatewayClient.resumeSuccessUpdate st1 call.gatewayUrl call.sessionId
       call.lastSequenceNumber call.shardId call.shardCount,
     ⟨dis.closeEventSent, call, false, RecoverOutcome.resumedOk⟩)
  | ResumeOutcome.invalidSession =>
    match connectRes with
    | ConnectOutcome.ready newSessionId =>
      (GatewayClient.connectSuccessUpdate st1 st.lastGatewayUrl
         st.shardId st.shardCount newSessionId,
       ⟨dis.closeEventSent, call, true, RecoverOutcome.freshSessionReady⟩)
    | ConnectOutcome.connectError =>
      (st1, ⟨dis.closeEventSent, call, true, RecoverOutcome.raisedConnect⟩)
  | ResumeOutcome.transportError =>
    (st1, ⟨dis.closeEventSent, call, false, RecoverOutcome.raisedTransport⟩)

/-- Folding `processMessage` over a list of received messages (the
read loop delivering them one by one). -/
def GatewayClient.processMessages (st : GatewayState)
    (msgs : List GwMessage) : GatewayState :=
  msgs.foldl (fun s m => (GatewayClient.processMessage s m).1) st

/-- The record `RatelimitLock::RatelimitInfo` (ratelimit_lock.hpp lines 79-85). -/
structure RatelimitInfo where
  route : String
  remaining : Nat
  total : Nat
  resetTime : Int
deriving Repr, DecidableEq

/-- Modelled from the spec: the repository's config.hpp (defining the
`HEXICORD_RATELIMIT_CACHE_SIZE` macro) is not among the provided
sources; the spec fixes the cache capacity default at 100. -/
def HEXICORD_RATELIMIT_CACHE_SIZE : Nat := 100

/-- The state of a `RatelimitLock` (ratelimit_lock.hpp lines 90-91):
`std::list<RatelimitInfo> queue` and
`std::unordered_map<std::string, std::list::iterator> ratelimitPointers`.
Each list node carries a unique id (`nextId` counter) so that the
map's iterators can be modelled as node ids, which - like std::list
iterators - stay valid while other nodes are inserted or erased.
The queue's head is the list front (oldest node). -/
structure RatelimitLock where
  queue : List (Nat × RatelimitInfo)
  ratelimitPointers : List (String × Nat)
  nextId : Nat
deriving Repr, DecidableEq

/-- A freshly constructed `RatelimitLock`. -/
def RatelimitLock.empty : RatelimitLock := ⟨[], [], 0⟩

/-- Embeds `RatelimitLock::remaining` (ratelimit_lock.cpp lines 35-38):
the record's `remaining`, or -1 when the route has no record. -/
def RatelimitLock.remaining (l : RatelimitLock) (route : String) : Int :=
  match l.ratelimitPointers.lookup route with
  | some nodeId =>
    match l.queue.lookup nodeId with
    | some info => (info.remaining : Int)
    | none => -1
  | none => -1

/-- Embeds `RatelimitLock::total` (ratelimit_lock.cpp lines 40-43). -/
def RatelimitLock.total (l : RatelimitLock) (route : String) : Int :=
  match l.ratelimitPointers.lookup route with
  | some nodeId =>
    match l.queue.lookup nodeId with
    | some info => (info.total : Int)
    | none => -1
  | none => -1

/-- Embeds `RatelimitLock::resetTime` (ratelimit_lock.cpp lines 45-48). -/
def RatelimitLock.resetTime (l : RatelimitLock) (route : String) : Int :=
  match l.ratelimitPointers.lookup route with
  | some nodeId =>
    match l.queue.lookup nodeId with
    | some info => info.resetTime
    | none => -1
  | none => -1

/-- What one `RatelimitLock::down` call did to its caller. -/
inductive DownResult where
  /-- no record for the route: return immediately, no blocking. -/
  | noInfo
  /-- record present, decremented `remaining` still nonzero: proceed. -/
  | proceeded
  /-- `remaining` reached 0 with `resetTime <= now`: record evicted
  immediately, no blocking. -/
  | staleEvicted
  /-- `remaining` reached 0 with a future `resetTime`: this call
  sleeps until `t = resetTime`, then evicts the record. -/
  | blockedUntil (t : Int)
deriving Repr, DecidableEq

/-- Embeds `RatelimitLock::down` (ratelimit_lock.cpp lines 50-84).  `now` is
`std::time(nullptr)` at the call.  `remaining` is `unsigned`, so the
`--routeInfo.remaining` decrement is modelled by `udec`.  The inner
`none` branch (a map entry whose node id is no longer in the queue)
corresponds to dereferencing a dangling iterator in the source and is
unreachable from `RatelimitLock.empty`; it is given the no-record
behaviour for totality. -/
def RatelimitLock.down (l : RatelimitLock) (route : String) (now : Int) :
    RatelimitLock × DownResult :=
  match l.ratelimitPointers.lookup route with
  | none => (l, DownResult.noInfo)
  | some nodeId =>
    match l.queue.lookup nodeId with
    | none => (l, DownResult.noInfo)
    | some info =>
      let newRemaining := udec info.remaining
      if newRemaining = 0 then
        let evicted : RatelimitLock :=
          { l with
            queue := l.queue.eraseP (fun p => p.1 == nodeId),
            ratelimitPointers :=
              l.ratelimitPointers.eraseP (fun p => p.1 == route) }
        if info.resetTime ≤ now then
          (evicted, DownResult.staleEvicted)
        else
          (evicted, DownResult.blockedUntil info.resetTime)
      else
        ({ l with
           queue := l.queue.map
             (fun p => cond (p.1 == nodeId) (p.1, { info with remaining := newRemaining }) p) },
         DownResult.proceeded)

/-- Embeds `RatelimitLock::refreshInfo` (ratelimit_lock.cpp lines 86-112),
with the `HEXICORD_RATELIMIT_CACHE_SIZE` macro as the `cacheSize`
argument.  When the route already has a map entry the source only
does `queue.push_back(...)`, leaving the map untouched; otherwise it
evicts the queue front if the queue is exactly at capacity, then
pushes the new record and inserts its iterator into the map.
`ratelimitPointers.erase(ratelimitPointers.find(...))` is modelled as
erase-if-present. -/
def RatelimitLock.refreshInfo (l : RatelimitLock) (cacheSize : Nat)
    (route : String) (remaining total : Nat) (resetTime : Int) :
    RatelimitLock :=
  match l.ratelimitPointers.lookup route with
  | some _ =>
    { l with
      queue := l.queue ++ [(l.nextId, ⟨route, remaining, total, resetTime⟩)],
      nextId := l.nextId + 1 }
  | none =>
    let l1 :=
      if l.queue.length = cacheSize then
        match l.queue with
        | [] => l
        | front :: rest =>
          { l with
            queue := rest,
            ratelimitPointers :=
              l.ratelimitPointers.eraseP (fun p => p.1 == front.2.route) }
      else l
    { l1 with
      queue := l1.queue ++ [(l.nextId, ⟨route, remaining, total, resetTime⟩)],
      ratelimitPointers := (route, l.nextId) :: l1.ratelimitPointers,
      nextId := l.nextId + 1 }

/-- The type `REST::MultipartEntity` (name, filename, body bytes; the extra
headers are irrelevant to the embedded logic). -/
structure MultipartEntity where
  name : String
  filename : String
  body : List Nat
deriving Repr, DecidableEq

/-- The five arguments of one `RestClient::sendRestRequest` call. -/
structure RestRequestArgs where
  method : String
  endpoint : String
  payload : Json
  query : List (String × String)
  multipart : List MultipartEntity
deriving Repr

/-- A received REST response: status code and body.  `none` models an
empty body; `some j` a body that parsed to the JSON value `j` (a parse
failure throws in the source and is outside this embedding). -/
structure HTTPResponse where
  statusCode : Nat
  body : Option Json
deriving Repr

/-- The typed errors `RestClient::throwRestError` can raise
(exceptions.hpp hierarchy), plus a marker for the json type errors
nlohmann::json would itself raise on ill-typed field access. -/
inductive RestError where
  | unknownEntity (message : String) (code : Int)
  | limitReached (message : String) (code : Int)
  | restError (message : String) (code : Int) (statusCode : Nat)
  | invalidParameter (param : String) (description : String)
  /-- the final `throw RESTError("Unknown error")`. -/
  | unknownRestError
  | jsonTypeError
deriving Repr

/-- The undocumented-error scan at the end of `throwRestError`
(rest_client.cpp lines 550-570): find a field whose value is a
one-element array holding a string.  The source iterates an
unordered_map in unspecified order; the model takes the first such
field in document order. -/
def invalidParameterScan (payload : Json) : Option (String × String) :=
  match payload with
  | Json.obj fields =>
    fields.findSome? (fun p =>
      match p.2 with
      | Json.arr [Json.str s] => some (p.1, s)
      | _ => none)
  | _ => none

/-- Embeds `RestClient::throwRestError` (rest_client.cpp lines 532-572):
`code` defaults to -1 and is read from the body when present; when a
`message` field is present the error class is chosen by `code / 10000`
(C++ `int` division truncates toward zero); otherwise the
invalid-parameter scan runs, and failing that a generic unknown
error is raised. -/
def RestClient.throwRestError (resp : HTTPResponse) (payload : Json) :
    RestError :=
  let code : Option Int :=
    match payload.lookup "code" with
    | some (Json.num c) => some c
    | some _ => none
    | none => some (-1)
  match code with
  | none => RestError.jsonTypeError
  | some code =>
    match payload.lookup "message" with
    | some (Json.str msg) =>
      if Int.tdiv code 10000 = 1 then RestError.unknownEntity msg code
      else if Int.tdiv code 10000 = 5 then RestError.limitReached msg code
      else RestError.restError msg code resp.statusCode
    | some _ => RestError.jsonTypeError
    | none =>
      match invalidParameterScan payload with
      | some (param, desc) => RestError.invalidParameter param desc
      | none => RestError.unknownRestError

/-- What one pass of `sendRestRequest`'s response handling does. -/
inductive RestStep where
  /-- the parsed body (or json null for an empty body) is returned. -/
  | success (result : Json)
  /-- status 429: sleep `seconds` (`jsonResp["retry_after"]`) and
  re-invoke `sendRestRequest` with the arguments `retried`. -/
  | retryAfter (seconds : Nat) (retried : RestRequestArgs)
  /-- a typed error is thrown. -/
  | failed (e : RestError)
deriving Repr

/-- The response handling of `RestClient::sendRestRequest`
(rest_client.cpp lines 107-134): an empty body returns an empty
result before any status check; then a non-2xx status either sleeps
and retries (429) or raises via `throwRestError`.  The 429 recursion
`sendRestRequest(method, endpoint, payload, query)` passes only four
arguments, so the retried call gets the defaulted empty `multipart`
list.  (The ratelimit refresh between parsing and the status check is
modelled separately via `RatelimitLock.refreshInfo`.) -/
def RestClient.handleRestResponse (req : RestRequestArgs)
    (resp : HTTPResponse) : RestStep :=
  match resp.body with
  | none => RestStep.success Json.null
  | some jsonResp =>
    if resp.statusCode / 100 ≠ 2 then
      if resp.statusCode = 429 then
        match jsonResp.lookup "retry_after" with
        | some (Json.num n) =>
          RestStep.retryAfter n.toNat { req with multipart := [] }
        | _ => RestStep.failed RestError.jsonTypeError
      else
        RestStep.failed (RestClient.throwRestError resp jsonResp)
    else RestStep.success jsonResp

/-- A concrete client state used to evaluate the model: an alive
session "sess" on "wss://gateway", no sharding, sequence number 0,
no outstanding heartbeats. -/
def testGatewayState : GatewayState :=
  { sessionId := "sess"
    lastGatewayUrl := "wss://gateway"
    token := "tok"
    shardId := NoSharding
    shardCount := NoSharding
    lastSequenceNumber := 0
    unansweredHeartbeats := 0
    heartbeat := true
    poll := true
    connectionOpen := true }

/-- The Identify payload's default `initialPresense` argument
(gateway_client.hpp lines 100-103). -/
def defaultPresense : Json :=
  Json.obj
    [("game", Json.null), ("status", Json.str "online"),
     ("since", Json.null), ("afk", Json.bool false)]

/-- A lock whose cache holds exactly one record, for route "a", with
one acquisition left in a window that resets at time 10. -/
def c2Lock : RatelimitLock :=
  RatelimitLock.empty.refreshInfo HEXICORD_RATELIMIT_CACHE_SIZE "a" 1 5 10

/-- One `refreshInfo` call with fixed quota values, at the spec's
cache capacity. -/
def c3Refresh (l : RatelimitLock) (r : String) : RatelimitLock :=
  l.refreshInfo HEXICORD_RATELIMIT_CACHE_SIZE r 5 5 1000

/-- 100 distinct routes, then a repeat refresh of route "0", then a
101st distinct route "100". -/
def c3Lock : RatelimitLock :=
  c3Refresh (c3Refresh
    (((List.range 100).map (fun i => toString i)).foldl c3Refresh
      RatelimitLock.empty) "0") "100"

/-- A REST call with a JSON payload and one multipart attachment. -/
def c7Req : RestRequestArgs :=
  ⟨"POST", "/channels/1/messages", Json.obj [("content", Json.str "hi")], [],
   [⟨"file", "cat.png", [1, 2, 3]⟩]⟩

/-- C10: processing a HeartbeatAck always applies the unsigned
decrement to `unansweredHeartbeats`; starting from counter 0 it wraps
to 2^32 - 1, after which the next heartbeat timer firing takes the
`unansweredHeartbeats >= 2` branch of `sendHeartbeat` and triggers
`recoverConnection` instead of sending a heartbeat. -/
theorem C10_heartbeatAck_underflow (st : GatewayState)
    (h : st.unansweredHeartbeats = 0) :
    (∀ st2 : GatewayState,
      (GatewayClient.processMessage st2 GwMessage.heartbeatAck).1.unansweredHeartbeats
        = udec st2.unansweredHeartbeats)
    ∧ (GatewayClient.processMessage st GwMessage.heartbeatAck).1.unansweredHeartbeats
        = 2 ^ 32 - 1
    ∧ (GatewayClient.sendHeartbeat
        (GatewayClient.processMessage st GwMessage.heartbeatAck).1).2
        = HeartbeatStep.recoverTriggered := by
  refine ⟨fun st2 => rfl, ?_, ?_⟩
  · show udec st.unansweredHeartbeats = 2 ^ 32 - 1
    rw [h]
    decide
  · show (GatewayClient.sendHeartbeat _).2 = _
    unfold GatewayClient.sendHeartbeat
    rw [if_pos]
    show 2 ≤ udec st.unansweredHeartbeats
    rw [h]
    decide

/-- Witness for C10 at the concrete state `testGatewayState`. -/
theorem C10_heartbeatAck_underflow_witness :
    (GatewayClient.processMessage testGatewayState GwMessage.heartbeatAck).1.unansweredHeartbeats
      = 2 ^ 32 - 1
    ∧ (GatewayClient.sendHeartbeat
        (GatewayClient.processMessage testGatewayState GwMessage.heartbeatAck).1).2
        = HeartbeatStep.recoverTriggered :=
  ⟨(C10_heartbeatAck_underflow testGatewayState rfl).2.1,
   (C10_heartbeatAck_underflow testGatewayState rfl).2.2⟩

/-- C5: a Dispatch whose event name is not in `eventEnumFromString`'s
table fails the `assert` there (abort), so it reaches no handler and
no unknown-event sink; known names are translated and dispatched.
`MESSAGE_REACTION_REMOVE` is a real wire event name missing from the
table (its siblings `MESSAGE_REACTION_ADD` and
`MESSAGE_REACTION_REMOVE_ALL` are present). -/
theorem C5_unknown_event_fails_assert :
    GatewayClient.eventEnumFromString "MESSAGE_REACTION_REMOVE" = none
    ∧ (GatewayClient.processMessage testGatewayState
        (GwMessage.eventDispatch "MESSAGE_REACTION_REMOVE" 1 Json.null)).2
        = ProcessEffect.assertFailed "MESSAGE_REACTION_REMOVE"
    ∧ (GatewayClient.processMessage testGatewayState
        (GwMessage.eventDispatch "MESSAGE_CREATE" 1 Json.null)).2
        = ProcessEffect.dispatched Event.MessageCreate Json.null :=
  ⟨rfl, rfl, rfl⟩

/-- C9: the Identify payload built by `connect` carries the supplied
token, the properties triple, `compress:false`, `large_threshold:250`
and the shard pair exactly when both sharding parameters are supplied
— but the presence object is stored under the misspelled key
`"presense"`, and no `"presence"` key exists. -/
theorem C9_identify_payload_fields :
    (identifyPayload "linux" "tok" 0 2 defaultPresense).lookup "presence" = none
    ∧ (identifyPayload "linux" "tok" 0 2 defaultPresense).lookup "presense"
        = some defaultPresense
    ∧ (identifyPayload "linux" "tok" 0 2 defaultPresense).lookup "token"
        = some (Json.str "tok")
    ∧ (identifyPayload "linux" "tok" 0 2 defaultPresense).lookup "properties"
        = some (Json.obj
            [("os", Json.str "linux"), ("browser", Json.str "hexicord"),
             ("device", Json.str "hexicord")])
    ∧ (identifyPayload "linux" "tok" 0 2 defaultPresense).lookup "compress"
        = some (Json.bool false)
    ∧ (identifyPayload "linux" "tok" 0 2 defaultPresense).lookup "large_threshold"
        = some (Json.num 250)
    ∧ (identifyPayload "linux" "tok" 0 2 defaultPresense).lookup "shard"
        = some (Json.arr [Json.num 0, Json.num 2])
    ∧ (identifyPayload "linux" "tok" NoSharding NoSharding defaultPresense).lookup "shard"
        = none
    ∧ (identifyPayload "linux" "tok" 0 NoSharding defaultPresense).lookup "shard"
        = none :=
  ⟨rfl, rfl, rfl, rfl, rfl, rfl, rfl, rfl, rfl⟩

/-- C6: `recoverConnection` disconnects without a close event, resumes
with the stored gateway URL, session id, sequence number and shard
pair; it falls back to `connect` exactly when the resume attempt
raised `GatewayError` (invalid session), and when that fallback
reaches Ready the final state is a fresh alive session with
sequence number 0. -/
theorem C6_recoverConnection_fallback (st : GatewayState)
    (resumeRes : ResumeOutcome) (connectRes : ConnectOutcome) :
    (GatewayClient.recoverConnection st resumeRes connectRes).2.closeEventSent = false
    ∧ (GatewayClient.recoverConnection st resumeRes connectRes).2.resumeCall
        = ⟨st.lastGatewayUrl, st.sessionId, st.lastSequenceNumber,
           st.shardId, st.shardCount⟩
    ∧ ((GatewayClient.recoverConnection st resumeRes connectRes).2.fellBackToConnect
        ↔ resumeRes = ResumeOutcome.invalidSession)
    ∧ (∀ newSid : String, resumeRes = ResumeOutcome.invalidSession →
        connectRes = ConnectOutcome.ready newSid →
        (GatewayClient.recoverConnection st resumeRes connectRes).2.outcome
            = RecoverOutcome.freshSessionReady
        ∧ (GatewayClient.recoverConnection st resumeRes connectRes).1.sessionId = newSid
        ∧ (GatewayClient.recoverConnection st resumeRes connectRes).1.lastSequenceNumber = 0
        ∧ (GatewayClient.recoverConnection st resumeRes connectRes).1.heartbeat = true
        ∧ (GatewayClient.recoverConnection st resumeRes connectRes).1.poll = true)
    ∧ (resumeRes = ResumeOutcome.resumed →
        (GatewayClient.recoverConnection st resumeRes connectRes).1.lastSequenceNumber
          = st.lastSequenceNumber
        ∧ (GatewayClient.recoverConnection st resumeRes connectRes).1.sessionId
          = st.sessionId) := by
  cases resumeRes <;> cases connectRes <;>
    simp [GatewayClient.recoverConnection, GatewayClient.disconnect,
      GatewayClient.connectSuccessUpdate, GatewayClient.resumeSuccessUpdate]

/-- Witness for C6: invalid-session resume followed by a successful
fresh connect, at the concrete state `testGatewayState`. -/
theorem C6_recoverConnection_fallback_witness :
    (GatewayClient.recoverConnection testGatewayState
        ResumeOutcome.invalidSession (ConnectOutcome.ready "newSess")).2.outcome
      = RecoverOutcome.freshSessionReady
    ∧ (GatewayClient.recoverConnection testGatewayState
        ResumeOutcome.invalidSession (ConnectOutcome.ready "newSess")).1.sessionId
      = "newSess"
    ∧ (GatewayClient.recoverConnection testGatewayState
        ResumeOutcome.invalidSession (ConnectOutcome.ready "newSess")).1.lastSequenceNumber
      = 0 :=
  ⟨((C6_recoverConnection_fallback testGatewayState ResumeOutcome.invalidSession
      (ConnectOutcome.ready "newSess")).2.2.2.1 "newSess" rfl rfl).1,
   ((C6_recoverConnection_fallback testGatewayState ResumeOutcome.invalidSession
      (ConnectOutcome.ready "newSess")).2.2.2.1 "newSess" rfl rfl).2.1,
   ((C6_recoverConnection_fallback testGatewayState ResumeOutcome.invalidSession
      (ConnectOutcome.ready "newSess")).2.2.2.1 "newSess" rfl rfl).2.2.1⟩

/-- C8 counterexample: on an op 7 Reconnect the client does not run
`recoverConnection` (which never sends a close event): the Reconnect
branch calls `disconnect()` with the default code 2000, which does
send a close event, and then resumes directly. -/
theorem C8_reconnect_not_recoverConnection :
    (GatewayClient.processMessage testGatewayState GwMessage.reconnect).2
      = ProcessEffect.reconnectAction ⟨true⟩ ⟨"wss://gateway", "sess", 0, -1, -1⟩
    ∧ (GatewayClient.recoverConnection testGatewayState
        ResumeOutcome.resumed ConnectOutcome.connectError).2.closeEventSent = false
    ∧ (true : Bool) ≠ false :=
  ⟨rfl, rfl, by decide⟩

/-- Processing one Dispatch always stores its `s` field into
`lastSequenceNumber`, whether or not the event name is known (the
assignment precedes the name translation in the source). -/
theorem GatewayClient.processMessage_dispatch_fst (st : GatewayState)
    (t : String) (s : Int) (d : Json) :
    (GatewayClient.processMessage st (GwMessage.eventDispatch t s d)).1
      = { st with lastSequenceNumber := s } := by
  cases h : GatewayClient.eventEnumFromString t <;>
    simp [GatewayClient.processMessage, h]

/-- Folding a list of Dispatch messages leaves `lastSequenceNumber`
equal to the `s` of the last one (the initial value when the list is
empty): the source overwrites, it does not take a maximum. -/
theorem GatewayClient.processMessages_dispatch (st : GatewayState)
    (l : List (String × Int × Json)) :
    (GatewayClient.processMessages st
        (l.map (fun p => GwMessage.eventDispatch p.1 p.2.1 p.2.2))).lastSequenceNumber
      = (l.map (fun p => p.2.1)).getLastD st.lastSequenceNumber := by
  induction l generalizing st with
  | nil => rfl
  | cons a tl ih =>
    simp only [List.map_cons, GatewayClient.processMessages, List.foldl_cons]
    rw [GatewayClient.processMessage_dispatch_fst]
    have htl := ih ({ st with lastSequenceNumber := a.2.1 })
    simp only [GatewayClient.processMessages] at htl
    rw [htl, List.getLastD_cons]

/-- The last element of a non-decreasing chain is its maximum. -/
theorem foldl_max_of_chainLe (xs : List Int) (a : Int)
    (h : List.Chain' (· ≤ ·) (a :: xs)) :
    xs.foldl max a = xs.getLastD a := by
  induction xs generalizing a with
  | nil => rfl
  | cons x tl ih =>
    rw [List.foldl_cons]
    have hax : a ≤ x := (List.chain'_cons.mp h).1
    have h2 : List.Chain' (· ≤ ·) (x :: tl) := (List.chain'_cons.mp h).2
    rw [max_eq_right hax, ih x h2, List.getLastD_cons]

/-- C1 counterexample: Dispatch messages with `s = 5` then `s = 3`
leave `lastSequenceNumber = 3`, not the maximum 5 — and the value
decreased from 5 to 3 while the session stayed alive, so it is not
monotonic non-decreasing either. -/
theorem C1_last_not_max_counterexample :
    (GatewayClient.processMessages testGatewayState
        [GwMessage.eventDispatch "MESSAGE_CREATE" 5 Json.null]).lastSequenceNumber = 5
    ∧ (GatewayClient.processMessages testGatewayState
        [GwMessage.eventDispatch "MESSAGE_CREATE" 5 Json.null,
         GwMessage.eventDispatch "MESSAGE_CREATE" 3 Json.null]).lastSequenceNumber = 3
    ∧ max (5 : Int) 3 = 5
    ∧ (3 : Int) ≠ 5
    ∧ (3 : Int) < 5 :=
  ⟨rfl, rfl, by decide, by decide, by decide⟩

/-- C1 amended: after processing a sequence of Dispatch messages
`lastSequenceNumber` equals the `s` field of the most recently
processed Dispatch (the prior value if there was none); when the `s`
values arrive in non-decreasing order starting from the current
value — the situation the spec presumes — this coincides with the
maximum observed so far; a successful fresh connect resets it to 0
and a successful resume sets it to the supplied resume point.
(`hknown` restricts the run to known event names, on which the
source survives the assertion in `eventEnumFromString`.) -/
theorem C1_lastSequenceNumber_tracks_last (st : GatewayState)
    (l : List (String × Int × Json))
    (hknown : ∀ p ∈ l, (GatewayClient.eventEnumFromString p.1).isSome = true)
    (url sid : String) (i c n : Int) :
    (GatewayClient.processMessages st
        (l.map (fun p => GwMessage.eventDispatch p.1 p.2.1 p.2.2))).lastSequenceNumber
      = (l.map (fun p => p.2.1)).getLastD st.lastSequenceNumber
    ∧ (List.Chain' (· ≤ ·) (st.lastSequenceNumber :: l.map (fun p => p.2.1)) →
        (GatewayClient.processMessages st
            (l.map (fun p => GwMessage.eventDispatch p.1 p.2.1 p.2.2))).lastSequenceNumber
          = (l.map (fun p => p.2.1)).foldl max st.lastSequenceNumber)
    ∧ (GatewayClient.connectSuccessUpdate st url i c sid).lastSequenceNumber = 0
    ∧ (GatewayClient.resumeSuccessUpdate st url sid n i c).lastSequenceNumber = n := by
  refine ⟨GatewayClient.processMessages_dispatch st l, fun hchain => ?_, rfl, rfl⟩
  rw [GatewayClient.processMessages_dispatch st l,
    foldl_max_of_chainLe (l.map (fun p => p.2.1)) st.lastSequenceNumber hchain]

/-- Witness for C1 at a concrete non-decreasing run. -/
theorem C1_lastSequenceNumber_tracks_last_witness :
    (GatewayClient.processMessages testGatewayState
        ([(("MESSAGE_CREATE", 4, Json.null)), (("MESSAGE_CREATE", 7, Json.null))].map
          (fun p => GwMessage.eventDispatch p.1 p.2.1 p.2.2))).lastSequenceNumber
      = ([(("MESSAGE_CREATE", (4 : Int), Json.null)), (("MESSAGE_CREATE", 7, Json.null))].map
          (fun p => p.2.1)).getLastD testGatewayState.lastSequenceNumber
    ∧ (GatewayClient.connectSuccessUpdate testGatewayState "wss://gateway" (-1) (-1) "s2").lastSequenceNumber
        = 0
    ∧ (GatewayClient.resumeSuccessUpdate testGatewayState "wss://gateway" "sess" 7 (-1) (-1)).lastSequenceNumber
        = 7 := by
  have h := C1_lastSequenceNumber_tracks_last testGatewayState
    [("MESSAGE_CREATE", 4, Json.null), ("MESSAGE_CREATE", 7, Json.null)]
    (by intro p hp; fin_cases hp <;> rfl)
    "wss://gateway" "s2" (-1) (-1) 7
  exact ⟨h.1, h.2.2.1, (C1_lastSequenceNumber_tracks_last testGatewayState
    [("MESSAGE_CREATE", 4, Json.null), ("MESSAGE_CREATE", 7, Json.null)]
    (by intro p hp; fin_cases hp <;> rfl)
    "wss://gateway" "sess" (-1) (-1) 7).2.2.2⟩

/-- Updating the node `nodeId` in place (as `--routeInfo.remaining`
does through the stored iterator) makes a lookup of that node see the
new value. -/
theorem lookup_map_replaceNode (q : List (Nat × RatelimitInfo)) (nodeId : Nat)
    (info new : RatelimitInfo) (h : q.lookup nodeId = some info) :
    (q.map (fun p => cond (p.1 == nodeId) (p.1, new) p)).lookup nodeId
      = some new := by
  induction q with
  | nil => simp [List.lookup] at h
  | cons a tl ih =>
    rcases a with ⟨k, v⟩
    by_cases hk : k = nodeId
    · subst hk
      simp only [List.map_cons, beq_self_eq_true, cond_true, List.lookup]
    · have h1 : (k == nodeId) = false := beq_eq_false_iff_ne.mpr hk
      have h2 : (nodeId == k) = false := beq_eq_false_iff_ne.mpr (Ne.symm hk)
      simp only [List.lookup, h2] at h
      simp only [List.map_cons, h1, cond_false, List.lookup, h2]
      exact ih h

/-- A key absent from an association list looks up to none. -/
theorem lookup_eq_none_of_not_keyMem (l : List (String × Nat)) (route : String)
    (h : route ∉ l.map Prod.fst) : l.lookup route = none := by
  induction l with
  | nil => rfl
  | cons a tl ih =>
    simp only [List.map_cons, List.mem_cons] at h
    push_neg at h
    simp only [List.lookup, beq_eq_false_iff_ne.mpr h.1]
    exact ih h.2

/-- Erasing a key from an association list with distinct keys (an
`unordered_map` snapshot) removes it entirely: the lookup misses. -/
theorem lookup_erasePKey_eq_none (l : List (String × Nat)) (route : String)
    (hnd : (l.map Prod.fst).Nodup) :
    (l.eraseP (fun p => p.1 == route)).lookup route = none := by
  induction l with
  | nil => rfl
  | cons a tl ih =>
    rcases a with ⟨k, v⟩
    simp only [List.map_cons, List.nodup_cons] at hnd
    by_cases hk : k = route
    · subst hk
      simp only [List.eraseP_cons, beq_self_eq_true, cond_true]
      exact lookup_eq_none_of_not_keyMem tl k hnd.1
    · simp only [List.eraseP_cons, beq_eq_false_iff_ne.mpr hk, cond_false,
        List.lookup, beq_eq_false_iff_ne.mpr (Ne.symm hk)]
      exact ih hnd.2

/-- C2 counterexample: with a cached record `remaining = 1`,
`resetUnixTime = 10` and now = 5, the acquire that brings `remaining`
to 0 is itself the one that blocks (until 10) and then evicts the
record; the next acquire on the route finds no record and proceeds
without blocking — contradicting "the next acquire on that route
blocks until at least that time". -/
theorem C2_next_acquire_does_not_block :
    (c2Lock.down "a" 5).2 = DownResult.blockedUntil 10
    ∧ ((c2Lock.down "a" 5).1.down "a" 5).2 = DownResult.noInfo
    ∧ ∀ t : Int, DownResult.noInfo ≠ DownResult.blockedUntil t :=
  ⟨by decide, by decide, fun t h => by cases h⟩

/-- C2 amended: `down` on a route with no record proceeds immediately;
on a cached record it applies the unsigned decrement to `remaining`
exactly once; if the decremented value is nonzero the call proceeds
and the record carries the decremented value; if it is zero and the
reset time has passed the record is evicted immediately without
waiting; if it is zero and the reset time is in the future, this same
call blocks until `resetUnixTime` and evicts, so the next acquire on
the route finds no record and proceeds. -/
theorem C2_down_amended (l : RatelimitLock) (route : String) (now now2 : Int)
    (nodeId : Nat) (info : RatelimitInfo)
    (hptr : l.ratelimitPointers.lookup route = some nodeId)
    (hnode : l.queue.lookup nodeId = some info)
    (hnd : (l.ratelimitPointers.map Prod.fst).Nodup) :
    (∀ (l2 : RatelimitLock) (r2 : String) (t2 : Int),
        l2.ratelimitPointers.lookup r2 = none →
        l2.down r2 t2 = (l2, DownResult.noInfo))
    ∧ (udec info.remaining ≠ 0 →
        (l.down route now).2 = DownResult.proceeded
        ∧ (l.down route now).1.remaining route = (udec info.remaining : Int))
    ∧ (udec info.remaining = 0 → info.resetTime ≤ now →
        (l.down route now).2 = DownResult.staleEvicted
        ∧ (l.down route now).1.ratelimitPointers.lookup route = none)
    ∧ (udec info.remaining = 0 → now < info.resetTime →
        (l.down route now).2 = DownResult.blockedUntil info.resetTime
        ∧ (l.down route now).1.ratelimitPointers.lookup route = none
        ∧ ((l.down route now).1.down route now2).2 = DownResult.noInfo) := by
  have hno : ∀ (l2 : RatelimitLock) (r2 : String) (t2 : Int),
      l2.ratelimitPointers.lookup r2 = none →
      l2.down r2 t2 = (l2, DownResult.noInfo) :=
    fun l2 r2 t2 h => by simp [RatelimitLock.down, h]
  have hgone : (l.ratelimitPointers.eraseP (fun p => p.1 == route)).lookup route = none :=
    lookup_erasePKey_eq_none l.ratelimitPointers route hnd
  refine ⟨hno, ?_, ?_, ?_⟩
  · intro hnz
    have hdown : l.down route now =
        ({ l with
            queue := l.queue.map (fun p =>
              cond (p.1 == nodeId) (p.1, { info with remaining := udec info.remaining }) p) },
         DownResult.proceeded) := by
      simp [RatelimitLock.down, hptr, hnode, hnz]
    have hq := lookup_map_replaceNode l.queue nodeId info
      { info with remaining := udec info.remaining } hnode
    rw [hdown]
    exact ⟨rfl, by simp [RatelimitLock.remaining, hptr, hq]⟩
  · intro hz hle
    have hdown : l.down route now =
        ({ l with
            queue := l.queue.eraseP (fun p => p.1 == nodeId),
            ratelimitPointers := l.ratelimitPointers.eraseP (fun p => p.1 == route) },
         DownResult.staleEvicted) := by
      simp [RatelimitLock.down, hptr, hnode, hz, hle]
    rw [hdown]
    exact ⟨rfl, hgone⟩
  · intro hz hgt
    have hnle : ¬ info.resetTime ≤ now := not_le.mpr hgt
    have hdown : l.down route now =
        ({ l with
            queue := l.queue.eraseP (fun p => p.1 == nodeId),
            ratelimitPointers := l.ratelimitPointers.eraseP (fun p => p.1 == route) },
         DownResult.blockedUntil info.resetTime) := by
      simp [RatelimitLock.down, hptr, hnode, hz, hnle]
    rw [hdown]
    refine ⟨rfl, hgone, ?_⟩
    rw [hno _ _ _ hgone]

/-- Witness for C2 at the concrete lock `c2Lock` (remaining = 1,
reset time 10, now = 5): the decrementing call blocks until 10 and the
route's record is gone afterwards, so the next call finds nothing. -/
theorem C2_down_amended_witness :
    (c2Lock.down "a" 5).2 = DownResult.blockedUntil (⟨"a", 1, 5, 10⟩ : RatelimitInfo).resetTime
    ∧ (c2Lock.down "a" 5).1.ratelimitPointers.lookup "a" = none
    ∧ ((c2Lock.down "a" 5).1.down "a" 7).2 = DownResult.noInfo :=
  (C2_down_amended c2Lock "a" 5 7 0 ⟨"a", 1, 5, 10⟩ (by decide) (by decide)
    (by decide)).2.2.2 (by decide) (by decide)

set_option maxRecDepth 40000 in
/-- C3: filling the cache with 100 distinct routes, refreshing one of
them again (which appends a duplicate node without evicting), and
then inserting a 101st distinct route leaves 102 records in the queue
and 101 map entries — the cache exceeds its capacity of 100, and the
101st distinct insertion evicted nothing (the `queue.size() ==
HEXICORD_RATELIMIT_CACHE_SIZE` equality test never fires once the
size has overshot). -/
theorem C3_cache_size_exceeded :
    c3Lock.queue.length = 102
    ∧ c3Lock.ratelimitPointers.length = 101
    ∧ HEXICORD_RATELIMIT_CACHE_SIZE = 100
    ∧ 102 > HEXICORD_RATELIMIT_CACHE_SIZE := by decide

/-- C4: after `refreshInfo("a", 5, 10, 100)` followed by
`refreshInfo("a", 3, 7, 200)`, the accessors still return the first
call's values (5, 10, 100) — not the refreshed ones — and the queue
holds two records for the single route "a": refreshing an existing
route appends a duplicate node but never updates the map entry the
accessors read through. -/
theorem C4_refresh_does_not_replace :
    ((RatelimitLock.empty.refreshInfo HEXICORD_RATELIMIT_CACHE_SIZE "a" 5 10 100).refreshInfo
        HEXICORD_RATELIMIT_CACHE_SIZE "a" 3 7 200).remaining "a" = 5
    ∧ ((RatelimitLock.empty.refreshInfo HEXICORD_RATELIMIT_CACHE_SIZE "a" 5 10 100).refreshInfo
        HEXICORD_RATELIMIT_CACHE_SIZE "a" 3 7 200).total "a" = 10
    ∧ ((RatelimitLock.empty.refreshInfo HEXICORD_RATELIMIT_CACHE_SIZE "a" 5 10 100).refreshInfo
        HEXICORD_RATELIMIT_CACHE_SIZE "a" 3 7 200).resetTime "a" = 100
    ∧ ((RatelimitLock.empty.refreshInfo HEXICORD_RATELIMIT_CACHE_SIZE "a" 5 10 100).refreshInfo
        HEXICORD_RATELIMIT_CACHE_SIZE "a" 3 7 200).queue.length = 2
    ∧ (5 : Int) ≠ 3 ∧ (10 : Int) ≠ 7 ∧ (100 : Int) ≠ 200 := by decide

/-- C++ truncating division by 10000 sends exactly the 10000s
(10000-19999) to 1. -/
theorem tdiv10000_eq_one (code : Int) (h1 : 10000 ≤ code) (h2 : code < 20000) :
    Int.tdiv code 10000 = 1 := by
  rw [Int.tdiv_eq_ediv (by omega) (by norm_num)]
  omega

/-- C++ truncating division by 10000 sends exactly the 50000s
(50000-59999) to 5. -/
theorem tdiv10000_eq_five (code : Int) (h1 : 50000 ≤ code) (h2 : code < 60000) :
    Int.tdiv code 10000 = 5 := by
  rw [Int.tdiv_eq_ediv (by omega) (by norm_num)]
  omega

/-- C7 counterexample: (i) a non-2xx response (404) with an empty body
does not raise any typed error — the empty-body check precedes the
status check and returns an empty result; (ii) a 429 retry is not the
identical call: the recursive `sendRestRequest(method, endpoint,
payload, query)` drops the multipart parts. -/
theorem C7_counterexample :
    RestClient.handleRestResponse c7Req ⟨404, none⟩ = RestStep.success Json.null
    ∧ (∀ e : RestError, RestStep.success Json.null ≠ RestStep.failed e)
    ∧ RestClient.handleRestResponse c7Req
        ⟨429, some (Json.obj [("retry_after", Json.num 3)])⟩
      = RestStep.retryAfter 3 { c7Req with multipart := [] }
    ∧ ({ c7Req with multipart := [] }).multipart ≠ c7Req.multipart := by
  refine ⟨rfl, fun e h => ?_, rfl, by decide⟩
  cases h

/-- C7 amended: for a non-2xx response with a non-empty body, a 429
reads `retry_after` from the body and retries the call with the same
method, endpoint, payload and query but an empty multipart list; any
other such status raises the typed error picked by the API error
code's range when the body carries a message — UnknownEntity in the
10000s, LimitReached in the 50000s, otherwise a generic API error
with the server message and status.  A non-2xx response with an
empty body instead returns an empty result without error. -/
theorem C7_amended (req : RestRequestArgs) (resp : HTTPResponse) (j : Json)
    (code n : Int) (msg : String)
    (hbody : resp.body = some j) (hst : resp.statusCode / 100 ≠ 2) :
    (resp.statusCode = 429 → j.lookup "retry_after" = some (Json.num n) →
      RestClient.handleRestResponse req resp
        = RestStep.retryAfter n.toNat { req with multipart := [] })
    ∧ (resp.statusCode ≠ 429 → j.lookup "message" = some (Json.str msg) →
        j.lookup "code" = some (Json.num code) →
        ((10000 ≤ code → code < 20000 →
            RestClient.handleRestResponse req resp
              = RestStep.failed (RestError.unknownEntity msg code))
         ∧ (50000 ≤ code → code < 60000 →
            RestClient.handleRestResponse req resp
              = RestStep.failed (RestError.limitReached msg code))
         ∧ (Int.tdiv code 10000 ≠ 1 → Int.tdiv code 10000 ≠ 5 →
            RestClient.handleRestResponse req resp
              = RestStep.failed (RestError.restError msg code resp.statusCode))))
    ∧ (∀ (req2 : RestRequestArgs) (resp2 : HTTPResponse), resp2.body = none →
        RestClient.handleRestResponse req2 resp2 = RestStep.success Json.null) := by
  refine ⟨?_, ?_, fun req2 resp2 h => by simp [RestClient.handleRestResponse, h]⟩
  · intro h429 hra
    simp [RestClient.handleRestResponse, hbody, hst, h429, hra]
  · intro hne hmsg hcode
    have hhandle : RestClient.handleRestResponse req resp
        = RestStep.failed (RestClient.throwRestError resp j) := by
      simp [RestClient.handleRestResponse, hbody, hst, hne]
    have hthrow : RestClient.throwRestError resp j
        = (if Int.tdiv code 10000 = 1 then RestError.unknownEntity msg code
           else if Int.tdiv code 10000 = 5 then RestError.limitReached msg code
           else RestError.restError msg code resp.statusCode) := by
      simp [RestClient.throwRestError, hcode, hmsg]
    refine ⟨fun ha hb => ?_, fun ha hb => ?_, fun ha hb => ?_⟩
    · rw [hhandle, hthrow, if_pos (tdiv10000_eq_one code ha hb)]
    · have h5 := tdiv10000_eq_five code ha hb
      rw [hhandle, hthrow, if_neg (by rw [h5]; norm_num), if_pos h5]
    · rw [hhandle, hthrow, if_neg ha, if_neg hb]

/-- Witness for C7: a 404 whose body carries code 10003 (in the
10000s) and a message raises UnknownEntity with that message. -/
theorem C7_amended_witness :
    RestClient.handleRestResponse c7Req
        ⟨404, some (Json.obj
          [("code", Json.num 10003), ("message", Json.str "Unknown Channel")])⟩
      = RestStep.failed (RestError.unknownEntity "Unknown Channel" 10003) :=
  ((C7_amended c7Req
      ⟨404, some (Json.obj
        [("code", Json.num 10003), ("message", Json.str "Unknown Channel")])⟩
      (Json.obj [("code", Json.num 10003), ("message", Json.str "Unknown Channel")])
      10003 0 "Unknown Channel" rfl (by decide)).2.1
    (by decide) rfl rfl).1 (by decide) (by decide)

/-- C8 amended: on Reconnect the client calls `disconnect()` with the
default code 2000 (sending a close event) and then `resume` with the
stored gateway URL, session id and sequence number but the default
NoSharding shard pair; there is no invalid-session fallback — a
`GatewayError` raised by that resume propagates to the caller. -/
theorem C8_reconnect_behaviour (st : GatewayState) :
    GatewayClient.processMessage st GwMessage.reconnect
      = ({ st with heartbeat := false, poll := false, connectionOpen := false },
         ProcessEffect.reconnectAction ⟨true⟩
           ⟨st.lastGatewayUrl, st.sessionId, st.lastSequenceNumber,
            NoSharding, NoSharding⟩) := rfl
